import Mathlib

/-!
Verification of the haxorport-go-client against its natural-language
specification.  The Go sources are shallowly embedded: pure fragments become
Lean functions, stateful methods become explicit state-passing functions, and
external effects (sockets, HTTP, the scheduler) are supplied by explicit
environment parameters.  Each embedded definition carries a comment naming the
Go source location it is translated from.
-/

namespace Haxorport

/-! ## Go string primitives

Mirrors of the `strings`/`strconv` functions used by the client, defined on
`List Char` so that they compute by kernel reduction.
-/

/-- Go `strings.HasPrefix` on character lists: `startsWithL s pat` is true iff
`pat` is a prefix of `s`. -/
def startsWithL : List Char → List Char → Bool
  | _, [] => true
  | [], _ :: _ => false
  | a :: s, b :: p => a = b && startsWithL s p

/-- Go `strings.Contains` on character lists: true iff `pat` occurs as a
contiguous substring of `s`. -/
def containsL (pat : List Char) : List Char → Bool
  | [] => startsWithL [] pat
  | c :: t => startsWithL (c :: t) pat || containsL pat t

/-- Go `strings.Split` with a one-character separator, on character lists.
Matches Go: `Split("", sep) = [""]`, separators produce empty fields. -/
def splitCharL (sep : Char) : List Char → List (List Char)
  | [] => [[]]
  | c :: t =>
    let r := splitCharL sep t
    if c = sep then [] :: r
    else
      match r with
      | [] => [[c]]
      | h :: rs => (c :: h) :: rs

/-- Digit run of `strconv.Atoi`: `none` on an empty list or any non-digit. -/
def digitsVal : List Char → Option Nat
  | [] => none
  | [c] => if c.isDigit then some (c.toNat - '0'.toNat) else none
  | c :: t =>
    if c.isDigit then
      match digitsVal t with
      | some v => some ((c.toNat - '0'.toNat) * 10 ^ t.length + v)
      | none => none
    else none

/-- Go `strconv.Atoi`: optional sign followed by decimal digits.
(Overflow of Go's `int` is not modelled; the client only parses ports.) -/
def goAtoi (s : String) : Option Int :=
  match s.toList with
  | '-' :: t => (digitsVal t).map (fun n => -(n : Int))
  | '+' :: t => (digitsVal t).map (fun n => (n : Int))
  | t => (digitsVal t).map (fun n => (n : Int))

/-- Go `strings.HasPrefix` on strings. -/
def goHasPre (s pat : String) : Bool := startsWithL s.toList pat.toList

/-- Go `strings.Contains` on strings. -/
def goContains (s pat : String) : Bool := containsL pat.toList s.toList

/-- Go `strings.Split` with separator `":"` (the only separator the client uses). -/
def goSplitColon (s : String) : List String :=
  (splitCharL ':' s.toList).map (fun l => String.mk l)

/-- Scanner of `strings.ReplaceAll` for a non-empty pattern: scan left to
right, replace non-overlapping occurrences, never rescanning a replacement.
The `fuel` argument only forces termination; every call supplies
`fuel = s.length`, which is sufficient because each step consumes at least
one character. -/
def replaceLAux (pat rep : List Char) : Nat → List Char → List Char
  | 0, s => s
  | Nat.succ fuel, s =>
    match s with
    | [] => []
    | c :: t =>
      if startsWithL (c :: t) pat ∧ pat ≠ [] then
        rep ++ replaceLAux pat rep fuel (t.drop (pat.length - 1))
      else
        c :: replaceLAux pat rep fuel t

/-- One pass of `strings.ReplaceAll` over character lists. -/
def replaceL (pat rep s : List Char) : List Char :=
  replaceLAux pat rep s.length s

/-- Go `strings.ReplaceAll` with an empty `old`: the replacement is inserted
before every character and at the end. -/
def replaceEmptyPatL (rep : List Char) : List Char → List Char
  | [] => rep
  | c :: t => rep ++ c :: replaceEmptyPatL rep t

/-- Go `strings.ReplaceAll s pat rep`. -/
def goReplaceAll (s pat rep : String) : String :=
  match pat.toList with
  | [] => String.mk (replaceEmptyPatL rep.toList s.toList)
  | _ :: _ => String.mk (replaceL pat.toList rep.toList s.toList)

/-! ## Data model (`internal/domain/model`) -/

/-- Struct `model.ResourceLimit` (auth_response.go). -/
structure ResourceLimit where
  limit : Int
  used : Int
  reached : Bool
  deriving Repr, DecidableEq

/-- Struct `model.SubscriptionLimits` (auth_response.go). -/
structure SubscriptionLimits where
  tunnels : ResourceLimit
  ports : ResourceLimit
  bandwidth : ResourceLimit
  requests : ResourceLimit
  deriving Repr, DecidableEq

/-- Struct `model.SubscriptionFeatures` (auth_response.go). -/
structure SubscriptionFeatures where
  customDomains : Bool
  analytics : Bool
  prioritySupport : Bool
  deriving Repr, DecidableEq

/-- Struct `model.Subscription` (auth_response.go). -/
structure Subscription where
  name : String
  limits : SubscriptionLimits
  features : SubscriptionFeatures
  deriving Repr, DecidableEq

/-- Struct `model.AuthData` (auth_response.go). -/
structure AuthData where
  userID : String
  fullname : String
  username : String
  email : String
  subscription : Subscription
  deriving Repr, DecidableEq

/-- Struct `model.AuthMeta` (auth_response.go). -/
structure AuthMeta where
  headerStatusCode : Int
  deriving Repr, DecidableEq

/-- Struct `model.AuthResponse` (auth_response.go). -/
structure AuthResponse where
  code : Int
  status : String
  message : String
  data : AuthData
  meta : AuthMeta
  deriving Repr, DecidableEq

/-! ## Auth validator (`internal/domain/service/auth_service.go`) -/

/-- Abstract result of running `json.Valid` / `json.Unmarshal` on a response
body (the JSON machinery itself is an external collaborator). -/
inductive BodyParse where
  /-- Case where `json.Valid` returned false; the preview string is reported. -/
  | notJson (preview : String)
  /-- Valid JSON but `json.Unmarshal` into `AuthResponse` failed. -/
  | jsonBad (errMsg : String)
  /-- Valid JSON that unmarshals to the given response. -/
  | jsonOk (resp : AuthResponse)
  deriving Repr, DecidableEq

/-- The HTTP exchange `client.Do` performs for the validator, as seen by the
code: either a network error or a status code with a (pre-parsed) body. -/
inductive HttpOutcome where
  | netErr (msg : String)
  | ok (statusCode : Int) (body : BodyParse)
  deriving Repr, DecidableEq

/-- The classified failures of `authService.ValidateTokenWithResponse`, one
constructor per distinct `fmt.Errorf` site in the Go function. -/
inductive AuthErr where
  /-- Go error "token cannot be empty". -/
  | emptyToken
  /-- Go error "failed to send request: %v". -/
  | network (msg : String)
  /-- Go error "token validation failed with status code: %d". -/
  | nonOKStatus (code : Int)
  /-- Go error "response is not valid JSON: %s". -/
  | malformedJson (preview : String)
  /-- Go error "failed to parse response: %v". -/
  | parseFailed (msg : String)
  deriving Repr, DecidableEq

/-- Method `authService.ValidateTokenWithResponse` (auth_service.go lines 47-105).
Returns the validation result together with whether an HTTP request was
issued. The empty-token check precedes every network operation. -/
def validateTokenWithResponse (token : String) (http : HttpOutcome) :
    Except AuthErr AuthResponse × Bool :=
  if token = "" then (.error .emptyToken, false)
  else
    match http with
    | .netErr m => (.error (.network m), true)
    | .ok statusCode body =>
      if statusCode ≠ 200 then (.error (.nonOKStatus statusCode), true)
      else
        match body with
        | .notJson p => (.error (.malformedJson p), true)
        | .jsonBad m => (.error (.parseFailed m), true)
        | .jsonOk r => (.ok r, true)

/-- Method `authService.ValidateToken` (auth_service.go lines 35-44): success iff
`status == "success" && code == 200` on the parsed response. -/
def validateToken (token : String) (http : HttpOutcome) : Except AuthErr Bool :=
  match (validateTokenWithResponse token http).1 with
  | .error e => .error e
  | .ok r => .ok (r.status = "success" && r.code = 200)

/-! ## Tunnel-limit check (`internal/infrastructure/transport/client.go`) -/

/-- Method `Client.CheckTunnelLimit` (client.go lines 466-479). `userData` is the
field populated by a successful token validation during `Connect`; it is `nil`
(`none`) when no validation has run. -/
def checkTunnelLimit (userData : Option AuthData) : Bool × Int × Int :=
  match userData with
  | none => (false, 0, 0)
  | some u =>
    let limits := u.subscription.limits.tunnels
    let reached := limits.reached || decide (limits.used ≥ limits.limit)
    (reached, limits.used, limits.limit)

/-! ## Session transport send path (`client.go`) -/

/-- The part of `transport.Client`'s state that `sendMessage` reads and
writes: the `isConnected` flag and whether `c.conn` is non-nil. -/
structure ClientConnState where
  isConnected : Bool
  connSet : Bool
  deriving Repr, DecidableEq

/-- Result of `c.conn.WriteMessage`, supplied by the environment. -/
inductive WriteResult where
  | ok
  | fail (msg : String)
  deriving Repr, DecidableEq

/-- Output of one `sendMessage` call: the returned error (if any), whether
`WriteMessage` was invoked at all, and the post-state. -/
structure SendOut where
  result : Except String Unit
  wrote : Bool
  state : ClientConnState
  deriving Repr

/-- Method `Client.sendMessage` (client.go lines 267-289).  `marshalOk` models
`json.Marshal` of the message; `w` models the WebSocket write.  A failed
write clears `isConnected` before the error is returned. -/
def sendMessage (s : ClientConnState) (marshalOk : Bool) (w : WriteResult) : SendOut :=
  if ¬ (s.isConnected ∧ s.connSet) then
    ⟨.error "not connected to server", false, s⟩
  else if ¬ marshalOk then
    ⟨.error "failed to convert message to JSON", false, s⟩
  else
    match w with
    | .ok => ⟨.ok (), true, s⟩
    | .fail m =>
      ⟨.error ("failed to send message: " ++ m), true,
       { s with isConnected := false }⟩

/-- A sequence of subsequent `sendMessage` calls threaded through the state,
collecting the returned results (client.go lines 267-289 iterated). -/
def runSends (s : ClientConnState) : List (Bool × WriteResult) →
    List (Except String Unit) × ClientConnState
  | [] => ([], s)
  | (m, w) :: rest =>
    let out := sendMessage s m w
    let (rs, s') := runSends out.state rest
    (out.result :: rs, s')

/-- The successful tail of `Client.Connect` (client.go lines 151-152): the
socket is installed and `isConnected` is set. -/
def connectSucceeded (_s : ClientConnState) : ClientConnState :=
  { isConnected := true, connSet := true }

/-! ## Tunnel registry, WebSocket mode (`src/unnamed/part_001`) -/

/-- Struct `model.TunnelConfig` (tunnel.go). `Auth` is dropped: no claim touches it. -/
structure TunnelConfig where
  name : String
  type : String
  localPort : Int
  localAddr : String
  subdomain : String
  remotePort : Int
  deriving Repr, DecidableEq

/-- Struct `model.Tunnel` (tunnel.go). -/
structure Tunnel where
  id : String
  config : TunnelConfig
  url : String
  remotePort : Int
  active : Bool
  deriving Repr, DecidableEq

/-- The registry's `tunnels` map as an association list keyed by tunnel id
(keys unique by construction: `Register` stores under the server-assigned
id). -/
abbrev TunnelMap := List (String × Tunnel)

/-- Go `delete(r.tunnels, tunnelID)`: remove the entry with the given key. -/
def tunnelMapDelete (m : TunnelMap) (tunnelID : String) : TunnelMap :=
  m.filter (fun p => p.1 ≠ tunnelID)

/-- Whether the map holds an entry for the id. -/
def tunnelMapHas (m : TunnelMap) (tunnelID : String) : Bool :=
  m.any (fun p => p.1 = tunnelID)

/-- Environment for one `Unregister` call: the result of `client.Connect`
(used only when not connected) and of `client.SendUnregisterTunnel`. -/
inductive CallResult where
  | ok
  | fail (msg : String)
  deriving Repr, DecidableEq

/-- Method `TunnelRepository.Unregister` (part_001 lines 106-125), with the
repository's `tunnels` map threaded explicitly.  Mirrors the Go control flow:
ensure connected, send the unregister frame, and only then delete the local
record; each failing step returns early with the wrapped error. -/
def unregisterTunnel (isConnected : Bool) (connectRes sendRes : CallResult)
    (tunnels : TunnelMap) (tunnelID : String) :
    Except String Unit × TunnelMap :=
  if ¬ isConnected then
    match connectRes with
    | .fail m => (.error ("failed to connect to server: " ++ m), tunnels)
    | .ok =>
      match sendRes with
      | .fail m => (.error ("failed to remove tunnel: " ++ m), tunnels)
      | .ok => (.ok (), tunnelMapDelete tunnels tunnelID)
  else
    match sendRes with
    | .fail m => (.error ("failed to remove tunnel: " ++ m), tunnels)
    | .ok => (.ok (), tunnelMapDelete tunnels tunnelID)

/-! ## Registry data-write path (`TunnelRepository.HandleData`) -/

/-- Observable socket operations performed by `HandleData`, in order. -/
inductive IOEvent where
  /-- Go `conn.SetWriteDeadline(now + ms)`. -/
  | setWriteDeadline (ms : Nat)
  /-- Go `conn.SetWriteDeadline(time.Time\x7b\x7d)`. -/
  | clearWriteDeadline
  /-- the `attempt`-th call of `conn.Write` (0-based) -/
  | write (attempt : Nat)
  /-- Go `time.Sleep(ms)`. -/
  | sleep (ms : Nat)
  /-- Go `conn.Close()`. -/
  | close
  /-- Go `delete(r.connections, id)`. -/
  | removeEntry (id : String)
  deriving Repr, DecidableEq

/-- The registry's `connections` map, keyed by connection id; the value is an
opaque socket handle. -/
abbrev ConnMap := List (String × Nat)

/-- Whether the connections map holds an entry for the id. -/
def connMapHas (m : ConnMap) (connectionID : String) : Bool :=
  m.any (fun p => p.1 = connectionID)

/-- Result of the `attempt`-th `conn.Write(data)`: bytes written or an error,
supplied by the environment. -/
abbrev WriteEnv := Nat → Except String Nat

/-- The retry loop of `HandleData` (part_001 lines 179-187): up to 3 write
attempts; each failed attempt logs and sleeps 100 ms before the next
iteration (also after the final failure, as in the Go loop).  Returns the
result of the last attempt together with the socket events in order. -/
def handleDataAttempts (w : WriteEnv) : Nat → Nat → Except String Nat × List IOEvent
  | _, 0 => (.error "", [])
  | attempt, Nat.succ rest =>
    match w attempt with
    | .ok n => (.ok n, [.write attempt])
    | .error m =>
      match rest with
      | 0 => (.error m, [.write attempt, .sleep 100])
      | Nat.succ _ =>
        let (res, evs) := handleDataAttempts w (attempt + 1) rest
        (res, .write attempt :: .sleep 100 :: evs)

/-- Method `TunnelRepository.HandleData` (part_001 lines 159-224): look up the
connection, write under a 5-second deadline with up to 3 attempts separated
by 100 ms sleeps, reset the deadline, surface a persistent failure as an
error; on a short write, attempt once more to write the remainder.  The
`connections` map is returned unchanged in every branch — the Go method never
closes the socket nor deletes the entry. -/
def handleData (connections : ConnMap) (connectionID : String)
    (dataLen : Nat) (w : WriteEnv) :
    Except String Unit × List IOEvent × ConnMap :=
  if ¬ connMapHas connections connectionID then
    (.error "connection not found", [], connections)
  else
    let (res, evs) := handleDataAttempts w 0 3
    let evs := IOEvent.setWriteDeadline 5000 :: evs ++ [IOEvent.clearWriteDeadline]
    match res with
    | .error m =>
      (.error ("failed to write data to connection after multiple attempts: " ++ m),
       evs, connections)
    | .ok n =>
      if n < dataLen ∧ 0 < n then
        -- short write: one extra write of the remainder, deadline set and reset
        (.ok (), evs ++ [IOEvent.setWriteDeadline 5000, IOEvent.write 3,
                         IOEvent.clearWriteDeadline], connections)
      else
        (.ok (), evs, connections)

/-! ## HTML URL rewriting (`client_http.go`) -/

/-- The HTML URL-rewriting block of `Client.HandleHTTPRequestMessage`
(client_http.go lines 72-120): replace `http://localhost:{port}` and
`https://localhost:{port}` with `{tunnelScheme}://{hostname}` and redirect
root-relative `href="/…"` / `src="/…"` attributes to the tunnel URL.  The
derived hostname (lines 82-104) is a parameter; `tunnelScheme` is `https`
only when the request's scheme is exactly `https` (lines 76-79). -/
def rewriteHTMLBody (localPort : Nat) (reqScheme hostname body : String) : String :=
  let localUrl := "http://localhost:" ++ toString localPort
  let localUrlSecure := "https://localhost:" ++ toString localPort
  let tunnelScheme := if reqScheme = "https" then "https" else "http"
  let tunnelUrl := tunnelScheme ++ "://" ++ hostname
  let b1 := goReplaceAll body localUrl tunnelUrl
  let b2 := goReplaceAll b1 localUrlSecure tunnelUrl
  let b3 := goReplaceAll b2 "href=\"/" ("href=\"" ++ tunnelUrl ++ "/")
  goReplaceAll b3 "src=\"/" ("src=\"" ++ tunnelUrl ++ "/")

/-- A body is *settled* for the rewriter when it contains none of the four
search patterns of `rewriteHTMLBody`, so every `ReplaceAll` pass leaves it
unchanged. -/
def rewriteSettled (localPort : Nat) (s : String) : Bool :=
  !(goContains s ("http://localhost:" ++ toString localPort)) &&
  !(goContains s ("https://localhost:" ++ toString localPort)) &&
  !(goContains s "href=\"/") &&
  !(goContains s "src=\"/")

/-! ## TCP tunnel command (`src/unnamed/part_006`, `tcpCmd`) -/

/-- Enum `model.ConnectionMode` (part of config). -/
inductive ConnectionMode where
  | websocket
  | directTcp
  | other (s : String)
  deriving Repr, DecidableEq

/-- The configuration fields `tcpCmd` consults. -/
structure CmdConfig where
  connectionMode : ConnectionMode
  authEnabled : Bool
  authToken : String
  authValidationURL : String
  serverAddress : String
  deriving Repr, DecidableEq

/-- Network side effects of running `tcpCmd`, in order. -/
inductive NetEffect where
  /-- the token-validation HTTP POST -/
  | tokenValidation
  deriving Repr, DecidableEq

/-- Outcome of the admission part of `tcpCmd.Run`. -/
inductive CmdResult where
  /-- Case where `os.Exit(n)` was called before any tunnel was registered or started. -/
  | exitCode (n : Nat)
  /-- control reached `Container.TunnelService.CreateTCPTunnel` (which then
  performs the DRT registration I/O). -/
  | proceed
  deriving Repr, DecidableEq

/-- The admission-control flow of `tcpCmd.Run` (part_006 lines 32-188):
reject a non-positive local port, force the connection mode to `direct_tcp`,
reject an empty token before any network I/O, validate the token over HTTP,
reject an invalid validation response, enforce the tunnel quota
(`reached || used >= limit`), and only then proceed to tunnel creation.
Returns the outcome and the network effects performed, in order. -/
def tcpCmdRun (tcpLocalPort : Int) (cfg : CmdConfig) (http : HttpOutcome) :
    CmdResult × List NetEffect :=
  if tcpLocalPort ≤ 0 then (.exitCode 1, [])
  else
    -- lines 39-42: connection mode forced to direct_tcp, so the auth branch
    -- condition `AuthEnabled || mode == direct_tcp` (line 46) always holds
    if cfg.authToken = "" then (.exitCode 1, [])
    else
      -- DirectTCP path (lines 96-119): a temporary auth service validates the
      -- token with `ValidateTokenWithResponse`
      match (validateTokenWithResponse cfg.authToken http).1 with
      | .error _ => (.exitCode 1, [.tokenValidation])
      | .ok resp =>
        if ¬ (resp.status = "success" ∧ resp.code = 200) then
          (.exitCode 1, [.tokenValidation])
        else
          -- lines 127-134: quota enforcement on the validated user data
          let t := resp.data.subscription.limits.tunnels
          if t.reached ∨ t.used ≥ t.limit then (.exitCode 1, [.tokenValidation])
          else (.proceed, [.tokenValidation])

/-! ## Direct-TCP tunnel registration (`direct_tunnel.go`, `Start`) -/

/-- The fields of `transport.DirectTunnel` that `Start` reads or writes,
together with the bookkeeping the claims observe (callback invocations and
sleeps). `mutexHeld` tracks `t.mutex`; `listenerField`/`connectionField`
track whether `t.listener`/`t.connection` are non-nil. -/
structure DTState where
  remotePort : Int
  mutexHeld : Bool
  listenerField : Bool
  connectionField : Bool
  connClosed : Bool
  stopped : Bool
  callbackCalls : List Int
  sleepsMs : List Nat
  deriving Repr, DecidableEq

/-- The state of a freshly constructed `DirectTunnel` (`NewDirectTunnel`,
direct_tunnel.go lines 38-51) with the given requested remote port. -/
def DTState.init (requestedPort : Int) : DTState :=
  { remotePort := requestedPort, mutexHeld := false, listenerField := false,
    connectionField := false, connClosed := false, stopped := false,
    callbackCalls := [], sleepsMs := [] }

/-- Environment of one `Start` run: the handshake response read for the k-th
registration attempt and the value of `rand.Intn(20000)` drawn on the k-th
`ERROR` retry. -/
structure DTEnv where
  responses : Nat → String
  rand : Nat → Nat

/-- Result of `DirectTunnel.Start`. -/
inductive DTOutcome where
  | ok
  | errMsg (m : String)
  /-- the goroutine blocks forever (a `sync.Mutex.Lock` on a mutex it
  already holds). -/
  | deadlock
  deriving Repr, DecidableEq

/-- Parsing of a `CONNECTED:`-prefixed handshake response
(direct_tunnel.go lines 148-151): split on `:`, require at least two parts,
`strconv.Atoi` the second. -/
def connectedPort (response : String) : Option Int :=
  match goSplitColon response with
  | _ :: portStr :: _ => goAtoi portStr
  | _ => none

/-- Method `DirectTunnel.Start` (direct_tunnel.go lines 61-205) restricted to the
executions the claims quantify over: `net.Listen`, `net.DialTimeout` and the
registration write succeed, and the handshake read returns
`env.responses attempt`.  Go's `sync.Mutex` is not reentrant: a `Lock` by the
goroutine that already holds the mutex blocks forever, modelled as
`.deadlock`.  The `fuel` argument bounds the `ERROR`-retry recursion (the
theorems hold for every sufficient fuel). -/
def dtStart (env : DTEnv) : Nat → Nat → DTState → DTOutcome × DTState
  | 0, _, s => (.deadlock, s)
  | Nat.succ fuel, attempt, s =>
    -- line 62: t.mutex.Lock() with the deferred unlock
    if s.mutexHeld then (.deadlock, s)
    else
      let s := { s with mutexHeld := true }
      -- line 65: already-running check on the t.listener / t.connection fields
      if s.listenerField ∨ s.connectionField then
        (.errMsg "tunnel sudah berjalan", { s with mutexHeld := false })
      else
        let s := { s with stopped := false }
        -- lines 73-101: local listener (a local variable until line 185),
        -- dial to the server setting t.connection, registration line written
        let s := { s with connectionField := true, connClosed := false }
        -- lines 116-126: handshake response read
        let response := env.responses attempt
        if goContains response "ERROR" then
          -- lines 129-143: close the server connection (the field stays
          -- non-nil), sleep 500 ms, adopt a fresh random remote port
          -- 10000 + rand.Intn(20000), then `return t.Start()` — a recursive
          -- call made while this invocation still holds the mutex
          let s := { s with connClosed := true,
                            sleepsMs := s.sleepsMs ++ [500],
                            remotePort := 10000 + Int.ofNat (env.rand attempt % 20000) }
          dtStart env fuel (attempt + 1) s
        else if goHasPre response "CONNECTED:" then
          match connectedPort response with
          | some actualPort =>
            if actualPort ≠ s.remotePort then
              -- line 153: t.mutex.Lock() while Start already holds the
              -- mutex — the update of t.remotePort and the port-change
              -- callback invocation that follow are never reached
              (.deadlock, s)
            else
              (.ok, { s with listenerField := true, mutexHeld := false })
          | none =>
            -- lines 169-174: parse failure or malformed format is only
            -- logged; registration continues with the requested port
            (.ok, { s with listenerField := true, mutexHeld := false })
        else if ¬ goContains response "CONNECTED" then
          -- lines 175-179: fatal unexpected response
          (.errMsg ("unexpected response from server: " ++ response),
           { s with connClosed := true, mutexHeld := false })
        else
          -- response contains CONNECTED without the `CONNECTED:` form:
          -- accept the requested port
          (.ok, { s with listenerField := true, mutexHeld := false })

/-! ## Per-connection forwarder (`src/unnamed/part_001`, `handleConnection`) -/

/-- One result of `conn.Read` in the forwarder's read loop. -/
inductive ReadResult where
  /-- Read of `n > 0` bytes. -/
  | chunk (data : List Nat)
  /-- a `net.Error` with `Timeout()`: the loop re-issues the read -/
  | timeout
  /-- Case `io.EOF` (or a persistent read error): the forwarder returns -/
  | eof
  deriving Repr, DecidableEq

/-- The read loop of `handleConnection` (part_001 lines 624-691): each
successful read copies the buffer and spawns `go func(data){ r.sendDataWithRetry(...) }`
(lines 657-664) — one independent background sender task per chunk, created
in read order.  Returns the payloads of the spawned tasks in spawn order. -/
def forwarderSpawnedSends : List ReadResult → List (List Nat)
  | [] => []
  | .chunk d :: rest => d :: forwarderSpawnedSends rest
  | .timeout :: rest => forwarderSpawnedSends rest
  | .eof :: _ => []

/-- Completion orders of a bag of independent one-shot tasks.  Each task
spawned by `go f(x)` runs concurrently with its siblings with no ordering
imposed by the Go runtime, so `TaskOrder pending delivered` holds exactly
when `delivered` is obtained by repeatedly running any still-pending task. -/
inductive TaskOrder : List (List Nat) → List (List Nat) → Prop
  | nil : TaskOrder [] []
  | pick (pending : List (List Nat)) (t : List Nat) (rest : List (List Nat)) :
      t ∈ pending → TaskOrder (pending.erase t) rest →
      TaskOrder pending (t :: rest)

/-- The `data` payload sequences that can reach the session transport for one
connection: some completion order of the sender tasks the forwarder spawned. -/
def forwarderDeliveries (reads : List ReadResult) (sent : List (List Nat)) : Prop :=
  TaskOrder (forwarderSpawnedSends reads) sent

/-! ## Sample data used by witnesses -/

/-- Subscription limits with the given tunnel usage; other resources idle. -/
def sampleLimits (used limit : Int) (reached : Bool) : SubscriptionLimits :=
  { tunnels := { limit := limit, used := used, reached := reached },
    ports := { limit := 0, used := 0, reached := false },
    bandwidth := { limit := 0, used := 0, reached := false },
    requests := { limit := 0, used := 0, reached := false } }

/-- Sample authenticated user with the given tunnel usage. -/
def sampleAuthData (used limit : Int) (reached : Bool) : AuthData :=
  { userID := "u1", fullname := "Jane Doe", username := "jane",
    email := "jane@example.net",
    subscription := { name := "pro", limits := sampleLimits used limit reached,
                      features := { customDomains := false, analytics := false,
                                    prioritySupport := false } } }

/-- Sample successful validation response with the given tunnel usage. -/
def sampleAuthResponse (used limit : Int) (reached : Bool) : AuthResponse :=
  { code := 200, status := "success", message := "ok",
    data := sampleAuthData used limit reached,
    meta := { headerStatusCode := 200 } }

/-! ## Theorems -/

/-- Claim C10: when no authenticated user data is present on the session,
`CheckTunnelLimit` reports the tunnel limit as not reached with zero usage,
so a quota check keyed on the returned flag passes. -/
theorem checkTunnelLimit_none_passes :
    checkTunnelLimit none = (false, 0, 0) ∧ (checkTunnelLimit none).1 = false :=
  ⟨rfl, rfl⟩

/-- Claim C7: the auth validator rejects the empty token without issuing any HTTP
request; for a non-empty token, validation succeeds iff the HTTP status is
200, the body is valid JSON that unmarshals, and the parsed body has status
`"success"` and code 200; a non-200 HTTP status and a non-JSON body each
yield their own classified error. -/
theorem validateToken_classification :
    (∀ http, validateTokenWithResponse "" http = (.error .emptyToken, false)) ∧
    (∀ (token : String) (status : Int) (body : BodyParse), token ≠ "" →
      (validateToken token (.ok status body) = .ok true ↔
        status = 200 ∧ ∃ r, body = .jsonOk r ∧ r.status = "success" ∧ r.code = 200)) ∧
    (∀ (token : String) (status : Int) (body : BodyParse), token ≠ "" → status ≠ 200 →
      (validateTokenWithResponse token (.ok status body)).1 = .error (.nonOKStatus status)) ∧
    (∀ (token preview : String), token ≠ "" →
      (validateTokenWithResponse token (.ok 200 (.notJson preview))).1 =
        .error (.malformedJson preview)) := by
  refine ⟨?_, ?_, ?_, ?_⟩
  · intro http
    simp [validateTokenWithResponse]
  · intro token status body htok
    simp only [validateToken, validateTokenWithResponse, if_neg htok]
    by_cases hs : status = 200
    · subst hs
      simp only [ne_eq, not_true_eq_false, if_false, ite_false]
      cases body with
      | notJson p => simp
      | jsonBad m => simp
      | jsonOk r => simp [Bool.and_eq_true, decide_eq_true_eq]
    · simp [hs]
  · intro token status body htok hs
    simp [validateTokenWithResponse, htok, hs]
  · intro token preview htok
    simp [validateTokenWithResponse, htok]

/-- Witness for C7 at concrete inputs. -/
theorem validateToken_classification_witness :
    validateTokenWithResponse "" (.netErr "down") = (.error .emptyToken, false) ∧
    validateToken "hxp_tok" (.ok 200 (.jsonOk (sampleAuthResponse 0 5 false))) = .ok true ∧
    (validateTokenWithResponse "hxp_tok" (.ok 503 (.notJson "<html>"))).1 =
      .error (.nonOKStatus 503) ∧
    (validateTokenWithResponse "hxp_tok" (.ok 200 (.notJson "<html>"))).1 =
      .error (.malformedJson "<html>") := by
  refine ⟨validateToken_classification.1 _, ?_, ?_, ?_⟩
  · exact (validateToken_classification.2.1 "hxp_tok" 200 _ (by decide)).mpr
      ⟨rfl, sampleAuthResponse 0 5 false, rfl, rfl, rfl⟩
  · exact validateToken_classification.2.2.1 "hxp_tok" 503 _ (by decide) (by decide)
  · exact validateToken_classification.2.2.2 "hxp_tok" "<html>" (by decide)

/-- When the session is marked disconnected, every sequence of subsequent
sends keeps failing and never flips the flag back. -/
theorem runSends_disconnected (s : ClientConnState) (h : s.isConnected = false) :
    ∀ calls, (∀ r ∈ (runSends s calls).1, ∃ e, r = .error e) ∧
      (runSends s calls).2 = s := by
  intro calls
  induction calls generalizing s with
  | nil => exact ⟨by simp [runSends], rfl⟩
  | cons c rest ih =>
    obtain ⟨m, w⟩ := c
    have hsend : sendMessage s m w = ⟨.error "not connected to server", false, s⟩ := by
      simp [sendMessage, h]
    have ihs := ih s h
    constructor
    · intro r hr
      simp only [runSends, hsend] at hr
      rcases List.mem_cons.mp hr with h1 | h2
      · exact ⟨"not connected to server", h1⟩
      · exact ihs.1 r h2
    · simp only [runSends, hsend]
      exact ihs.2

/-- Claim C9: `sendMessage` on a session that is not connected returns an error
without writing; a failed WebSocket write clears the connected flag before
returning its error, so every subsequent send on that session errors until a
new `Connect` succeeds. -/
theorem sendMessage_failure_poisons_session
    (s : ClientConnState) (mOk : Bool) (msg : String) :
    (s.isConnected = false ∨ s.connSet = false →
      ∀ w, sendMessage s mOk w = ⟨.error "not connected to server", false, s⟩) ∧
    (s.isConnected = true → s.connSet = true → mOk = true →
      (sendMessage s mOk (.fail msg)).result =
        .error ("failed to send message: " ++ msg) ∧
      (sendMessage s mOk (.fail msg)).state.isConnected = false ∧
      (∀ calls, ∀ r ∈ (runSends (sendMessage s mOk (.fail msg)).state calls).1,
        ∃ e, r = .error e) ∧
      (connectSucceeded (sendMessage s mOk (.fail msg)).state).isConnected = true) := by
  constructor
  · intro h w
    rcases h with h | h <;> simp [sendMessage, h]
  · intro hconn hset hm
    have hout : sendMessage s mOk (.fail msg) =
        ⟨.error ("failed to send message: " ++ msg), true,
         { s with isConnected := false }⟩ := by
      simp [sendMessage, hconn, hset, hm]
    refine ⟨by rw [hout], by rw [hout], ?_, by rw [hout]; rfl⟩
    intro calls r hr
    rw [hout] at hr
    exact (runSends_disconnected _ rfl calls).1 r hr

/-- Witness for C9 at a connected session whose write fails. -/
theorem sendMessage_failure_poisons_session_witness :
    (sendMessage ⟨true, true⟩ true (.fail "peer reset")).state.isConnected = false ∧
    (∀ r ∈ (runSends (sendMessage ⟨true, true⟩ true (.fail "peer reset")).state
        [(true, .ok), (true, .fail "x")]).1, ∃ e, r = .error e) := by
  have h := (sendMessage_failure_poisons_session ⟨true, true⟩ true "peer reset").2
    rfl rfl rfl
  exact ⟨h.2.1, fun r hr => h.2.2.1 [(true, .ok), (true, .fail "x")] r hr⟩

/-- Claim C6: a TCP-tunnel creation attempt whose validated subscription has the
tunnel quota reached (flag set, or used ≥ limit) exits with code 1 before any
tunnel is registered or started; the only network side effect is the
token-validation call. -/
theorem tcpCmd_quota_admission (lp : Int) (cfg : CmdConfig) (r : AuthResponse)
    (hlp : 0 < lp) (htok : cfg.authToken ≠ "")
    (hstatus : r.status = "success") (hcode : r.code = 200)
    (hquota : r.data.subscription.limits.tunnels.reached = true ∨
      r.data.subscription.limits.tunnels.limit ≤
        r.data.subscription.limits.tunnels.used) :
    tcpCmdRun lp cfg (.ok 200 (.jsonOk r)) = (.exitCode 1, [.tokenValidation]) := by
  have hnp : ¬ lp ≤ 0 := by omega
  simp only [tcpCmdRun, validateTokenWithResponse, if_neg hnp, if_neg htok]
  simp [hstatus, hcode, hquota]

/-- Witness for C6 at a subscription that has used 3 of 3 tunnels. -/
theorem tcpCmd_quota_admission_witness :
    0 < (22 : Int) ∧
    tcpCmdRun 22
      { connectionMode := .websocket, authEnabled := false, authToken := "hxp_tok",
        authValidationURL := "", serverAddress := "control.haxorport.online" }
      (.ok 200 (.jsonOk (sampleAuthResponse 3 3 true))) =
      (.exitCode 1, [.tokenValidation]) := by
  refine ⟨by decide, tcpCmd_quota_admission 22 _ _ (by decide) (by decide) (by decide)
    (by decide) (Or.inl (by decide))⟩

/-- A registered TCP tunnel record used in concrete registry states. -/
def sampleTunnel : Tunnel :=
  { id := "t1",
    config := { name := "", type := "tcp", localPort := 22,
                localAddr := "127.0.0.1", subdomain := "", remotePort := 2222 },
    url := "", remotePort := 2222, active := true }

/-- Claim C4 counterexample: with tunnel `t1` registered and the unregister send
failing, `Unregister` surfaces the error but the local record is NOT
removed — the registry still holds `t1`, contradicting the claim that local
state is removed regardless of the server-side outcome. -/
theorem unregister_send_failure_keeps_record :
    (unregisterTunnel true .ok (.fail "write: broken pipe")
        [("t1", sampleTunnel)] "t1").1 =
      .error "failed to remove tunnel: write: broken pipe" ∧
    tunnelMapHas (unregisterTunnel true .ok (.fail "write: broken pipe")
        [("t1", sampleTunnel)] "t1").2 "t1" = true :=
  ⟨rfl, rfl⟩

/-- Claim C4 (amended): `Unregister` sends the unregister frame and removes the
local record only when the send succeeds; a failed send surfaces the error
and leaves the registry map unchanged. -/
theorem unregister_removes_only_on_send_success (isConn : Bool)
    (cr sr : CallResult) (tunnels : TunnelMap) (tid : String)
    (hready : isConn = true ∨ cr = .ok) :
    (∀ m, sr = .fail m →
      unregisterTunnel isConn cr sr tunnels tid =
        (.error ("failed to remove tunnel: " ++ m), tunnels)) ∧
    (sr = .ok →
      unregisterTunnel isConn cr sr tunnels tid =
        (.ok (), tunnelMapDelete tunnels tid) ∧
      tunnelMapHas (tunnelMapDelete tunnels tid) tid = false) := by
  have hdel : tunnelMapHas (tunnelMapDelete tunnels tid) tid = false := by
    simp only [tunnelMapHas, tunnelMapDelete]
    rw [List.any_eq_false]
    intro p hp
    have hmem := List.mem_filter.mp hp
    simp only [decide_eq_true_eq] at hmem ⊢
    exact hmem.2
  constructor
  · intro m hm
    subst hm
    rcases hready with h | h
    · simp [unregisterTunnel, h]
    · cases isConn <;> simp [unregisterTunnel, h]
  · intro hm
    subst hm
    rcases hready with h | h
    · exact ⟨by simp [unregisterTunnel, h], hdel⟩
    · cases isConn <;> exact ⟨by simp [unregisterTunnel, h], hdel⟩

/-- Witness for the amended C4: both branches at a concrete registry. -/
theorem unregister_removes_only_on_send_success_witness :
    unregisterTunnel true .ok (.fail "boom") [("t1", sampleTunnel)] "t1" =
      (.error "failed to remove tunnel: boom", [("t1", sampleTunnel)]) ∧
    unregisterTunnel true .ok .ok [("t1", sampleTunnel)] "t1" =
      (.ok (), []) := by
  have h := unregister_removes_only_on_send_success true .ok (.fail "boom")
    [("t1", sampleTunnel)] "t1" (Or.inl rfl)
  have h2 := unregister_removes_only_on_send_success true .ok .ok
    [("t1", sampleTunnel)] "t1" (Or.inl rfl)
  refine ⟨h.1 "boom" rfl, ?_⟩
  have := (h2.2 rfl).1
  simpa [tunnelMapDelete] using this

/-- Claim C5 counterexample: a data message for a registered connection whose local
writes all fail is surfaced as an error, but the socket is not closed and the
connection's entry is NOT removed from the registry — contradicting the
claim's "the connection's socket is closed and its entry is removed". -/
theorem handleData_persistent_failure_keeps_entry :
    (handleData [("c1", 7)] "c1" 4 (fun _ => .error "broken pipe")).1 =
      .error "failed to write data to connection after multiple attempts: broken pipe" ∧
    (handleData [("c1", 7)] "c1" 4 (fun _ => .error "broken pipe")).2.2 =
      [("c1", 7)] ∧
    IOEvent.close ∉ (handleData [("c1", 7)] "c1" 4 (fun _ => .error "broken pipe")).2.1 ∧
    IOEvent.removeEntry "c1" ∉
      (handleData [("c1", 7)] "c1" 4 (fun _ => .error "broken pipe")).2.1 := by
  refine ⟨rfl, rfl, by decide, by decide⟩

/-- Claim C5 (amended): for a data message addressed to a connection present in the
registry, the payload write runs under a 5-second write deadline and a failed
write is retried up to 3 attempts total with a 100 ms delay after each
failure; when all attempts fail the handler returns the wrapped last error to
its caller, the socket is not closed, and the entry remains in the registry
(closing and removal happen in the per-connection forwarder, not here). -/
theorem handleData_retry_discipline (connections : ConnMap) (cid : String)
    (dataLen : Nat) (w : WriteEnv) (m0 m1 m2 : String)
    (hmem : connMapHas connections cid = true)
    (h0 : w 0 = .error m0) (h1 : w 1 = .error m1) (h2 : w 2 = .error m2) :
    handleData connections cid dataLen w =
      (.error ("failed to write data to connection after multiple attempts: " ++ m2),
       [.setWriteDeadline 5000, .write 0, .sleep 100, .write 1, .sleep 100,
        .write 2, .sleep 100, .clearWriteDeadline],
       connections) := by
  simp [handleData, handleDataAttempts, hmem, h0, h1, h2]

/-- Witness for the amended C5 at a concrete failing environment. -/
theorem handleData_retry_discipline_witness :
    handleData [("c1", 7)] "c1" 4 (fun _ => .error "broken pipe") =
      (.error "failed to write data to connection after multiple attempts: broken pipe",
       [.setWriteDeadline 5000, .write 0, .sleep 100, .write 1, .sleep 100,
        .write 2, .sleep 100, .clearWriteDeadline],
       [("c1", 7)]) :=
  handleData_retry_discipline [("c1", 7)] "c1" 4 (fun _ => .error "broken pipe")
    "broken pipe" "broken pipe" "broken pipe" (by decide) rfl rfl rfl

/-- Claim C1: with two chunks read in order from the local socket (byte 0x41, then
byte 0x42), the reversed delivery order is a reachable completion order of
the per-chunk background sender goroutines — so the payload sequence handed
to the session transport need not equal the read sequence, contradicting the
claim.  (The Go forwarder spawns one unordered `go sendDataWithRetry` task
per chunk, part_001 lines 657-664.) -/
theorem forwarder_reordering_reachable :
    forwarderDeliveries [.chunk [0x41], .chunk [0x42], .eof] [[0x42], [0x41]] ∧
    ([[0x42], [0x41]] : List (List Nat)) ≠ [[0x41], [0x42]] := by
  refine ⟨?_, by decide⟩
  show TaskOrder (forwarderSpawnedSends [.chunk [0x41], .chunk [0x42], .eof])
    [[0x42], [0x41]]
  have hs : forwarderSpawnedSends
      [ReadResult.chunk [0x41], ReadResult.chunk [0x42], ReadResult.eof] =
      [[0x41], [0x42]] := rfl
  rw [hs]
  refine TaskOrder.pick _ [0x42] _ (by decide) ?_
  have e1 : ([[0x41], [0x42]] : List (List Nat)).erase [0x42] = [[0x41]] := by decide
  rw [e1]
  refine TaskOrder.pick _ [0x41] _ (by decide) ?_
  have e2 : ([[0x41]] : List (List Nat)).erase [0x41] = [] := by decide
  rw [e2]
  exact TaskOrder.nil

/-- Claim C2: when the registration handshake returns `CONNECTED:20777` for a
tunnel that requested port 20000, `Start` reaches the port-adoption branch
and blocks forever re-locking the mutex it already holds (`t.mutex.Lock()` at
direct_tunnel.go line 153 inside the critical section opened at line 62):
`remote_port` keeps its requested value, the port-change callback is never
invoked, and `Start` does not return. -/
theorem dtStart_port_adoption_deadlocks :
    dtStart { responses := fun _ => "CONNECTED:20777", rand := fun _ => 0 } 5 0
        (DTState.init 20000) =
      (.deadlock,
       { remotePort := 20000, mutexHeld := true, listenerField := false,
         connectionField := true, connClosed := false, stopped := false,
         callbackCalls := [], sleepsMs := [] }) ∧
    connectedPort "CONNECTED:20777" = some 20777 := by
  constructor
  · rfl
  · rfl

/-- Claim C3: when the registration handshake returns an `ERROR` response for a
tunnel that requested port 20000, `Start` does close the connection, record
the 500 ms wait, and pick a fresh port in `[10000, 30000)` — but the
restart (`return t.Start()`, direct_tunnel.go line 143) immediately blocks
forever on the mutex the outer `Start` still holds, so the registration is
never re-run. -/
theorem dtStart_error_retry_deadlocks :
    dtStart { responses := fun _ => "ERROR:port already in use", rand := fun _ => 7777 }
        5 0 (DTState.init 20000) =
      (.deadlock,
       { remotePort := 17777, mutexHeld := true, listenerField := false,
         connectionField := true, connClosed := true, stopped := false,
         callbackCalls := [], sleepsMs := [500] }) ∧
    (10000 : Int) ≤ 17777 ∧ (17777 : Int) < 30000 := by
  exact ⟨rfl, by decide, by decide⟩

/-- The empty pattern occurs in every string. -/
theorem containsL_nil_pat : ∀ l : List Char, containsL [] l = true
  | [] => rfl
  | _ :: _ => by rw [containsL]; rfl

/-- The replacement scanner is the identity when the pattern does not occur,
for every fuel value. -/
theorem replaceLAux_of_not_contains (pat rep : List Char) :
    ∀ (fuel : Nat) (s : List Char), containsL pat s = false →
      replaceLAux pat rep fuel s = s := by
  intro fuel
  induction fuel with
  | zero => intro s _; rfl
  | succ fuel ih =>
    intro s h
    cases s with
    | nil => rfl
    | cons c t =>
      rw [containsL] at h
      simp only [Bool.or_eq_false_iff] at h
      rw [replaceLAux, if_neg, ih t h.2]
      intro hc
      rw [h.1] at hc
      exact absurd hc.1 (by simp)

/-- Go `strings.ReplaceAll` is the identity when the pattern does not occur. -/
theorem replaceL_of_not_contains (pat rep : List Char) (s : List Char)
    (h : containsL pat s = false) : replaceL pat rep s = s :=
  replaceLAux_of_not_contains pat rep s.length s h

/-- String form of `replaceL_of_not_contains`. -/
theorem goReplaceAll_of_not_contains (s pat rep : String)
    (h : goContains s pat = false) : goReplaceAll s pat rep = s := by
  have hrep := replaceL_of_not_contains pat.toList rep.toList s.toList h
  unfold goReplaceAll
  split
  · next heq =>
    rw [goContains, heq, containsL_nil_pat] at h
    exact absurd h (by simp)
  · next heq => rw [hrep]; rfl

/-- Claim C8 counterexample: with derived hostname `a" src="/b` (the Host header is
an arbitrary string), local port 8080 and scheme `https`, rewriting the body
`src="/x` twice differs from rewriting it once — the replacement inserted by
the first pass reintroduces the `src="/` pattern, which the second pass
rewrites again. -/
theorem rewriteHTMLBody_not_idempotent :
    rewriteHTMLBody 8080 "https" "a\" src=\"/b"
        (rewriteHTMLBody 8080 "https" "a\" src=\"/b" "src=\"/x") ≠
      rewriteHTMLBody 8080 "https" "a\" src=\"/b" "src=\"/x" := by decide

/-- Claim C8 (amended): the rewriter is idempotent on every body whose first
rewrite is settled, i.e. whose output no longer contains any of the four
search patterns (`http://localhost:{port}`, `https://localhost:{port}`,
`href="/`, `src="/`); an adversarial derived hostname can reintroduce a
pattern and break idempotence. -/
theorem rewriteHTMLBody_idempotent_on_settled (localPort : Nat)
    (reqScheme hostname body : String)
    (hsettled : rewriteSettled localPort
      (rewriteHTMLBody localPort reqScheme hostname body) = true) :
    rewriteHTMLBody localPort reqScheme hostname
        (rewriteHTMLBody localPort reqScheme hostname body) =
      rewriteHTMLBody localPort reqScheme hostname body := by
  set b1 := rewriteHTMLBody localPort reqScheme hostname body with hb1
  rw [rewriteSettled] at hsettled
  simp only [Bool.and_eq_true, Bool.not_eq_true'] at hsettled
  obtain ⟨⟨⟨h1, h2⟩, h3⟩, h4⟩ := hsettled
  show rewriteHTMLBody localPort reqScheme hostname b1 = b1
  simp only [rewriteHTMLBody]
  rw [goReplaceAll_of_not_contains _ _ _ h1, goReplaceAll_of_not_contains _ _ _ h2,
      goReplaceAll_of_not_contains _ _ _ h3, goReplaceAll_of_not_contains _ _ _ h4]

/-- Witness for the amended C8 on the spec's own rewrite scenario. -/
theorem rewriteHTMLBody_idempotent_on_settled_witness :
    rewriteSettled 8080
      (rewriteHTMLBody 8080 "https" "demo.example.net" "<a href=\"/x\">x</a>") = true ∧
    rewriteHTMLBody 8080 "https" "demo.example.net"
        (rewriteHTMLBody 8080 "https" "demo.example.net" "<a href=\"/x\">x</a>") =
      rewriteHTMLBody 8080 "https" "demo.example.net" "<a href=\"/x\">x</a>" :=
  ⟨by decide,
   rewriteHTMLBody_idempotent_on_settled 8080 "https" "demo.example.net"
     "<a href=\"/x\">x</a>" (by decide)⟩

end Haxorport
